import Mathlib

/-!
Verification development for the evolution-walker repository.

The TypeScript / WebAssembly sources are shallowly embedded over the real
numbers: each JS `number` becomes a real, in-place mutation of records
becomes functional record update, arrays become lists, `Map<string,Particle>`
becomes a function `String → Option Particle`, thrown exceptions become
`Except String`, and every call of `Math.random()` is drawn from an
explicit stream `rnd : ℕ → ℝ` of values in `[0,1)`.
-/

namespace EvoWalker

/-- 2D vector (src/core/types/physics.ts, `Vector2D`). -/
@[ext]
structure Vec2 where
  x : ℝ
  y : ℝ
deriving Inhabited

/-- Vector addition (src/utils/math.ts, `add`). -/
def add (v1 v2 : Vec2) : Vec2 :=
  ⟨v1.x + v2.x, v1.y + v2.y⟩

/-- Vector subtraction v1 − v2 (src/utils/math.ts, `subtract`). -/
def subtract (v1 v2 : Vec2) : Vec2 :=
  ⟨v1.x - v2.x, v1.y - v2.y⟩

/-- Scalar multiplication (src/utils/math.ts, `multiply`). -/
def multiply (v : Vec2) (scalar : ℝ) : Vec2 :=
  ⟨v.x * scalar, v.y * scalar⟩

/-- Alias for multiply (src/utils/math.ts, `scale`). -/
def scale (v : Vec2) (scalar : ℝ) : Vec2 :=
  multiply v scalar

/-- Euclidean distance between two points (src/utils/math.ts, `distance`). -/
noncomputable def distance (v1 v2 : Vec2) : ℝ :=
  Real.sqrt ((v2.x - v1.x) * (v2.x - v1.x) + (v2.y - v1.y) * (v2.y - v1.y))

/-- Magnitude of a vector (src/utils/math.ts, `length`). -/
noncomputable def vecLength (v : Vec2) : ℝ :=
  Real.sqrt (v.x * v.x + v.y * v.y)

/-- Normalization with the source's explicit zero-length guard
(src/utils/math.ts, `normalize`): a zero vector is returned unchanged,
so no division by zero ever happens. -/
noncomputable def normalize (v : Vec2) : Vec2 :=
  if vecLength v = 0 then ⟨0, 0⟩
  else ⟨v.x / vecLength v, v.y / vecLength v⟩

/-- Particle record (src/core/types/physics.ts, `Particle`). -/
@[ext]
structure Particle where
  id : String
  pos : Vec2
  oldPos : Vec2
  mass : ℝ
  radius : ℝ
  isLocked : Bool
  friction : ℝ
  velocity : Vec2
deriving Inhabited

/-- Ground record (src/core/types/physics.ts, `Ground`). -/
structure Ground where
  y : ℝ
  friction : ℝ
  restitution : ℝ
deriving Inhabited

/-- Wall record (src/core/types/physics.ts, `Wall`). -/
structure Wall where
  x : ℝ
  normal : Vec2
deriving Inhabited

/-- Air-resistance damping pass, in-place variant
(src/core/physics/verlet.ts, `applyAirResistance`): for each unlocked
particle the implicit velocity pos−oldPos is scaled by 1−coefficient and
oldPos rewritten so pos−oldPos equals the damped velocity. -/
def applyAirResistance (particles : List Particle) (coefficient : ℝ) : List Particle :=
  let dampingFactor := 1 - coefficient
  particles.map (fun particle =>
    if particle.isLocked then particle else
    let vx := particle.pos.x - particle.oldPos.x
    let vy := particle.pos.y - particle.oldPos.y
    let dampedVx := vx * dampingFactor
    let dampedVy := vy * dampingFactor
    { particle with
        oldPos := ⟨particle.pos.x - dampedVx, particle.pos.y - dampedVy⟩
        velocity := ⟨dampedVx, dampedVy⟩ })

/-- Verlet integration step, in-place variant
(src/core/physics/verlet.ts, `integrateVerlet`):
newPos = pos + (pos − oldPos) + (force/mass)·dt²; locked particles are
skipped; an air-resistance pass runs afterwards when airResistance > 0. -/
noncomputable def integrateVerlet (particles : List Particle) (forces : Vec2)
    (dt : ℝ) (airResistance : ℝ) : List Particle :=
  let dtSq := dt * dt
  let stepped := particles.map (fun particle =>
    if particle.isLocked then particle else
    let vx := particle.pos.x - particle.oldPos.x
    let vy := particle.pos.y - particle.oldPos.y
    let ax := forces.x / particle.mass
    let ay := forces.y / particle.mass
    let newPosX := particle.pos.x + vx + ax * dtSq
    let newPosY := particle.pos.y + vy + ay * dtSq
    { particle with
        oldPos := particle.pos
        pos := ⟨newPosX, newPosY⟩
        velocity := ⟨vx / dt, vy / dt⟩ })
  if 0 < airResistance then applyAirResistance stepped airResistance else stepped

/-- Nominal dt used to recompute velocity after a ground collision
(src/core/physics/collisions.ts, `APPROX_DT`). -/
noncomputable def APPROX_DT : ℝ := 0.016

/-- Decay factor for preserved upward velocity
(src/core/physics/collisions.ts, `PRESERVE_UPWARD_DAMP`). -/
noncomputable def PRESERVE_UPWARD_DAMP : ℝ := 0.95

/-- Per-particle body of `handleGroundCollision`
(src/core/physics/collisions.ts): an unlocked particle with
pos.y > ground.y − radius is clamped to the ground line, its oldPos is
rewritten from the pre-clamp velocity (upward velocity kept with a 0.95
decay, downward velocity scaled by restitution, horizontal velocity
reduced by friction), and velocity is recomputed with the fixed
nominal dt 0.016. -/
noncomputable def groundStep (ground : Ground) (particle : Particle) : Particle :=
  if particle.isLocked then particle
  else if particle.pos.y ≤ ground.y - particle.radius then particle
  else
    let newPosY := ground.y - particle.radius
    let vx := particle.pos.x - particle.oldPos.x
    let vy := particle.pos.y - particle.oldPos.y
    let frictionForce := vx * ground.friction
    let newOldPosY :=
      if vy < 0 then newPosY - vy * PRESERVE_UPWARD_DAMP
      else newPosY + vy * ground.restitution
    let newOldPosX := particle.pos.x - vx + frictionForce
    { particle with
        pos := ⟨particle.pos.x, newPosY⟩
        oldPos := ⟨newOldPosX, newOldPosY⟩
        velocity := ⟨(particle.pos.x - newOldPosX) / APPROX_DT,
                     (newPosY - newOldPosY) / APPROX_DT⟩ }

/-- Ground collision over a particle list, in place in the source
(src/core/physics/collisions.ts, `handleGroundCollision`). -/
noncomputable def handleGroundCollision (particles : List Particle) (ground : Ground) :
    List Particle :=
  particles.map (groundStep ground)

/-- One wall test for one particle, the inner loop body of
`handleWallCollision` (src/core/physics/collisions.ts): if the particle is
within radius of the wall plane and on the blocked side, pos.x is clamped
to the surface offset by radius along the normal and the implied
horizontal velocity is halved. -/
noncomputable def wallStepOne (particle : Particle) (wall : Wall) : Particle :=
  let distToWall := particle.pos.x - wall.x
  let absDist := |distToWall|
  if absDist < particle.radius ∧ distToWall * wall.normal.x < 0 then
    let newPosX := wall.x + wall.normal.x * particle.radius
    let vx := newPosX - particle.oldPos.x
    { particle with
        pos := ⟨newPosX, particle.pos.y⟩
        oldPos := ⟨newPosX - vx * 0.5, particle.oldPos.y⟩ }
  else particle

/-- Wall collision over a particle list
(src/core/physics/collisions.ts, `handleWallCollision`): locked particles
are skipped, every wall is tested in order against the running state. -/
noncomputable def handleWallCollision (particles : List Particle) (walls : List Wall) :
    List Particle :=
  particles.map (fun particle =>
    if particle.isLocked then particle
    else walls.foldl wallStepOne particle)

/-! ## Constraint solver (src/core/physics/constraints.ts) -/

/-- Unified constraint record. The source uses the union type
`Constraint | Muscle` (src/core/types/physics.ts): a plain constraint has
no `isMuscle` key, modelled here by `isMuscle := false`; a muscle carries
the oscillation fields and `isMuscle := true`. -/
structure Constraint where
  id : String
  p1Id : String
  p2Id : String
  restLength : ℝ
  stiffness : ℝ
  damping : ℝ
  isMuscle : Bool := false
  baseLength : ℝ := 0
  amplitude : ℝ := 0
  frequency : ℝ := 0
  phase : ℝ := 0
  currentLength : ℝ := 0
deriving Inhabited

/-- Particle lookup map. `Map<string, Particle>` in the source; object
identity of the mutated particles is modelled by reading and writing the
map functionally. -/
def PMap : Type := String → Option Particle

/-- Builds the particle map (src/core/physics/constraints.ts,
`createParticleMap`): `map.set(particle.id, particle)` for each particle
in order, a later particle with the same id overwriting an earlier one. -/
def createParticleMap (particles : List Particle) : PMap :=
  particles.foldl (fun m particle => fun k =>
    if k = particle.id then some particle else m k)
    (fun _ => none)

/-- A single `Map.set`, used for the in-place particle mutations of the
solver. -/
def setP (m : PMap) (k : String) (p : Particle) : PMap :=
  fun j => if j = k then some p else m j

/-- Muscle oscillator (src/core/physics/constraints.ts, `updateMuscles`):
currentLength = baseLength · (1 + amplitude · sin(time · frequency · 2π + phase)).
The source mutates every element of the muscles array. -/
noncomputable def updateMuscles (muscles : List Constraint) (time : ℝ) : List Constraint :=
  muscles.map (fun muscle =>
    let oscillation :=
      muscle.amplitude * Real.sin (time * muscle.frequency * 2 * Real.pi + muscle.phase)
    { muscle with currentLength := muscle.baseLength * (1 + oscillation) })

/-- The guarded in-place position write `if (!p.isLocked) p.pos ... ;` of the
solver: the particle currently stored under `key` is replaced by `f` of
itself unless it is locked. Reading the current value models the source's
mutation of the shared particle object. -/
noncomputable def writeUnlessLocked (m : PMap) (key : String) (f : Particle → Particle) :
    PMap :=
  match m key with
  | some q => if q.isLocked then m else setP m key (f q)
  | none => m

/-- One constraint relaxation, the per-constraint body of
`satisfyConstraints` (src/core/physics/constraints.ts): resolve both
endpoints (skip when missing), dead-band skip when |distance − target| < 0.01,
otherwise move each unlocked endpoint along the normalized direction by the
correction split by inverse mass share. Corrections and shares are computed
from the endpoints as first resolved; each write re-reads the current
record, mirroring the source's mutation of shared objects. -/
noncomputable def applyConstraint (m : PMap) (constraint : Constraint) : PMap :=
  match m constraint.p1Id, m constraint.p2Id with
  | some p1, some p2 =>
    let currentDist := distance p1.pos p2.pos
    let targetLength :=
      if constraint.isMuscle then constraint.currentLength else constraint.restLength
    let diff := currentDist - targetLength
    if |diff| < 0.01 then m
    else
      let direction := normalize (subtract p2.pos p1.pos)
      let correction := scale direction (diff * constraint.stiffness)
      let totalMass := p1.mass + p2.mass
      let share1 := p2.mass / totalMass
      let share2 := p1.mass / totalMass
      let m1 := writeUnlessLocked m constraint.p1Id (fun q =>
        { q with pos := ⟨q.pos.x + correction.x * share1,
                         q.pos.y + correction.y * share1⟩ })
      writeUnlessLocked m1 constraint.p2Id (fun q =>
        { q with pos := ⟨q.pos.x - correction.x * share2,
                         q.pos.y - correction.y * share2⟩ })
  | _, _ => m

/-- One full pass over the constraint list, the inner loop of
`satisfyConstraints`. -/
noncomputable def solveOnce (constraints : List Constraint) (m : PMap) : PMap :=
  constraints.foldl applyConstraint m

/-- Iterative relaxation (src/core/physics/constraints.ts,
`satisfyConstraints`): `iterations` passes over the constraint list. -/
noncomputable def satisfyConstraints (constraints : List Constraint) (m : PMap) :
    ℕ → PMap
  | 0 => m
  | n + 1 => satisfyConstraints constraints (solveOnce constraints m) n

/-! ## Genetics data model (src/core/types/genetics.ts) -/

/-- Single gene controlling one muscle (`MuscleGene`). -/
@[ext]
structure MuscleGene where
  muscleId : String
  amplitude : ℝ
  frequency : ℝ
  phase : ℝ
deriving Inhabited

/-- Complete genome (`Genome`). JS timestamps are modelled as naturals. -/
structure Genome where
  id : String
  genes : List MuscleGene
  generation : ℕ
  parentIds : Option (List String)
  createdAt : ℕ
deriving Inhabited

/-- Fitness score breakdown (`FitnessScore`). -/
structure FitnessScore where
  total : ℝ
  distance : ℝ
  targetBonus : ℝ
  efficiency : ℝ
  stability : ℝ
deriving Inhabited

/-- Complete creature entity (`Creature`). `minHeadY` is an optional field
in the source. -/
structure Creature where
  id : String
  genome : Genome
  particles : List Particle
  constraints : List Constraint
  muscles : List Constraint
  fitness : FitnessScore
  isDead : Bool
  startPos : Vec2
  currentPos : Vec2
  maxDistance : ℝ
  reachedTarget : Bool
  minHeadY : Option ℝ
deriving Inhabited

/-- Topology template (src/core/types/topology.ts): the static blueprint of
particles, constraints and muscles. -/
structure Topology where
  particles : List Particle
  constraints : List Constraint
  muscles : List Constraint

/-! ## Crossover (src/core/genetics/crossover.ts) -/

/-- The arity error thrown by all three crossover operators. -/
def crossoverArityMsg : String :=
  "Parent genomes must have the same number of genes for crossover"

/-- Gene bounds used for SBX clipping, aligned with mutation
(src/core/genetics/crossover.ts). -/
noncomputable def AMPLITUDE_MIN : ℝ := 0.05

/-- Upper amplitude bound. -/
noncomputable def AMPLITUDE_MAX : ℝ := 0.8

/-- Lower frequency bound. -/
noncomputable def FREQUENCY_MIN : ℝ := 0.1

/-- Upper frequency bound. -/
noncomputable def FREQUENCY_MAX : ℝ := 5.0

/-- Upper phase bound. -/
noncomputable def PHASE_MAX : ℝ := Real.pi * 2

/-- Clamp to [minV, maxV]: `Math.max(min, Math.min(max, value))`, the `clip`
helper of `sbxCrossover` and the clamp of `mutateValue`. -/
noncomputable def clip (value minV maxV : ℝ) : ℝ :=
  max minV (min maxV value)

/-- Gene blending of `arithmeticCrossover`. The source maps over parent1's
genes with index, reads parent2's gene at the same index and keeps
parent1's gene wholesale when parent2's is missing; that indexed map is
expressed by parallel recursion over both lists. -/
noncomputable def blendGenes (clampedAlpha : ℝ) :
    List MuscleGene → List MuscleGene → List MuscleGene
  | [], _ => []
  | gene1 :: t1, [] => gene1 :: t1
  | gene1 :: t1, gene2 :: t2 =>
    { muscleId := gene1.muscleId
      amplitude := gene1.amplitude * clampedAlpha + gene2.amplitude * (1 - clampedAlpha)
      frequency := gene1.frequency * clampedAlpha + gene2.frequency * (1 - clampedAlpha)
      phase := gene1.phase * clampedAlpha + gene2.phase * (1 - clampedAlpha) }
      :: blendGenes clampedAlpha t1 t2

/-- Arithmetic crossover (src/core/genetics/crossover.ts,
`arithmeticCrossover`): throws on mismatched gene-list lengths, else blends
component-wise with the clamped α. The generated id and `Date.now()` are
the effect parameters `newId` and `now`. -/
noncomputable def arithmeticCrossover (parent1 parent2 : Genome) (alpha : ℝ)
    (newId : String) (now : ℕ) : Except String Genome :=
  if parent1.genes.length ≠ parent2.genes.length then
    Except.error crossoverArityMsg
  else
    let clampedAlpha := max 0 (min 1 alpha)
    Except.ok
      { id := newId
        genes := blendGenes clampedAlpha parent1.genes parent2.genes
        generation := max parent1.generation parent2.generation + 1
        parentIds := some [parent1.id, parent2.id]
        createdAt := now }

/-- Per-gene coin flips of `uniformCrossoverWithBias`: gene i is taken from
parent1 when the i-th draw is below p; a missing parent2 gene short-circuits
to parent1's gene without consuming a draw. -/
noncomputable def pickGenes (p : ℝ) (rnd : ℕ → ℝ) :
    ℕ → List MuscleGene → List MuscleGene → List MuscleGene
  | _, [], _ => []
  | _, gene1 :: t1, [] => gene1 :: t1
  | n, gene1 :: t1, gene2 :: t2 =>
    (if rnd n < p then gene1 else gene2) :: pickGenes p rnd (n + 1) t1 t2

/-- Uniform crossover with fitter-parent bias (src/core/genetics/crossover.ts,
`uniformCrossoverWithBias`). -/
noncomputable def uniformCrossoverWithBias (parent1 parent2 : Genome)
    (probabilityFromParent1 : ℝ) (rnd : ℕ → ℝ) (newId : String) (now : ℕ) :
    Except String Genome :=
  if parent1.genes.length ≠ parent2.genes.length then
    Except.error crossoverArityMsg
  else
    let p := max 0 (min 1 probabilityFromParent1)
    Except.ok
      { id := newId
        genes := pickGenes p rnd 0 parent1.genes parent2.genes
        generation := max parent1.generation parent2.generation + 1
        parentIds := some [parent1.id, parent2.id]
        createdAt := now }

/-- Uniform 50/50 crossover (src/core/genetics/crossover.ts,
`uniformCrossover`). -/
noncomputable def uniformCrossover (parent1 parent2 : Genome) (rnd : ℕ → ℝ)
    (newId : String) (now : ℕ) : Except String Genome :=
  uniformCrossoverWithBias parent1 parent2 0.5 rnd newId now

/-- One SBX component (`sbxOne` inside `sbxCrossover`): the source swaps so
that x1 ≤ x2, draws a spread factor β from the power-law with exponent
`inv = 1/(η+1)`, forms the two children and keeps one at random. `u` is the
spread draw and `coin` the child-choice draw. -/
noncomputable def sbxOne (inv u coin x1 x2 : ℝ) : ℝ :=
  let lo := if x2 < x1 then x2 else x1
  let hi := if x2 < x1 then x1 else x2
  let beta := if u ≤ 0.5 then (2 * u) ^ inv else (1 / (2 * (1 - u))) ^ inv
  let c1 := 0.5 * (lo + hi - beta * (hi - lo))
  let c2 := 0.5 * (lo + hi + beta * (hi - lo))
  if coin < 0.5 then c1 else c2

/-- Per-gene SBX recombination of `sbxCrossover`, each component consuming a
spread draw and a coin draw, each clipped to its gene bounds. -/
noncomputable def sbxGenes (inv : ℝ) (rnd : ℕ → ℝ) :
    ℕ → List MuscleGene → List MuscleGene → List MuscleGene
  | _, [], _ => []
  | _, gene1 :: t1, [] => gene1 :: t1
  | n, gene1 :: t1, gene2 :: t2 =>
    { muscleId := gene1.muscleId
      amplitude := clip (sbxOne inv (rnd n) (rnd (n + 1)) gene1.amplitude gene2.amplitude)
        AMPLITUDE_MIN AMPLITUDE_MAX
      frequency := clip (sbxOne inv (rnd (n + 2)) (rnd (n + 3)) gene1.frequency gene2.frequency)
        FREQUENCY_MIN FREQUENCY_MAX
      phase := clip (sbxOne inv (rnd (n + 4)) (rnd (n + 5)) gene1.phase gene2.phase)
        0 PHASE_MAX }
      :: sbxGenes inv rnd (n + 6) t1 t2

/-- Simulated binary crossover (src/core/genetics/crossover.ts,
`sbxCrossover`): throws on mismatched lengths, else recombines per
component with distribution index η clamped to [1, 50]. -/
noncomputable def sbxCrossover (parent1 parent2 : Genome) (eta : ℝ)
    (rnd : ℕ → ℝ) (newId : String) (now : ℕ) : Except String Genome :=
  if parent1.genes.length ≠ parent2.genes.length then
    Except.error crossoverArityMsg
  else
    let e := max 1 (min 50 eta)
    let inv := 1 / (e + 1)
    Except.ok
      { id := newId
        genes := sbxGenes inv rnd 0 parent1.genes parent2.genes
        generation := max parent1.generation parent2.generation + 1
        parentIds := some [parent1.id, parent2.id]
        createdAt := now }

/-! ## Mutation (core/genetics/mutation module) -/

/-- Field perturbation with bounds checking (`mutateValue` inside
`mutateGenome`): change = (u − 0.5)·2·mutationStrength, then the scaled
value is clamped to [minV, maxV]. `u` is the random draw. -/
noncomputable def mutateValue (mutationStrength u value minV maxV : ℝ) : ℝ :=
  let change := (u - 0.5) * 2 * mutationStrength
  let newValue := value * (1 + change)
  max minV (min maxV newValue)

/-- Per-gene mutation loop of `mutateGenome`: gene i is left unchanged when
its gate draw exceeds mutationRate (consuming one draw), otherwise all
three fields are perturbed and clamped (consuming three more draws). -/
noncomputable def mutateGenes (mutationRate mutationStrength : ℝ) (rnd : ℕ → ℝ) :
    ℕ → List MuscleGene → List MuscleGene
  | _, [] => []
  | n, gene :: t =>
    if mutationRate < rnd n then
      gene :: mutateGenes mutationRate mutationStrength rnd (n + 1) t
    else
      { muscleId := gene.muscleId
        amplitude := mutateValue mutationStrength (rnd (n + 1)) gene.amplitude 0.05 0.8
        frequency := mutateValue mutationStrength (rnd (n + 2)) gene.frequency 0.1 5.0
        phase := mutateValue mutationStrength (rnd (n + 3)) gene.phase 0 (Real.pi * 2) }
        :: mutateGenes mutationRate mutationStrength rnd (n + 4) t

/-- Genome mutation (core/genetics/mutation module, `mutateGenome`):
returns a new genome with the mutated gene list, all other fields kept. -/
noncomputable def mutateGenome (genome : Genome) (mutationRate mutationStrength : ℝ)
    (rnd : ℕ → ℝ) : Genome :=
  { genome with genes := mutateGenes mutationRate mutationStrength rnd 0 genome.genes }

/-! ## Population seeding (core/genetics/population module) -/

/-- Random gene values per muscle (`createRandomGenome` body):
amplitude = random·1 + 0.5, frequency = random·1 + 0.3,
phase = random·π·2, three draws per muscle in source order. -/
noncomputable def randomGenes (rnd : ℕ → ℝ) : ℕ → List Constraint → List MuscleGene
  | _, [] => []
  | n, muscle :: t =>
    { muscleId := muscle.id
      amplitude := rnd n * 1 + 0.5
      frequency := rnd (n + 1) * 1 + 0.3
      phase := rnd (n + 2) * Real.pi * 2 }
      :: randomGenes rnd (n + 3) t

/-- Random genome for a topology (core/genetics/population module,
`createRandomGenome`). -/
noncomputable def createRandomGenome (topology : Topology) (generation : ℕ)
    (rnd : ℕ → ℝ) (newId : String) (now : ℕ) : Genome :=
  { id := newId
    genes := randomGenes rnd 0 topology.muscles
    generation := generation
    parentIds := none
    createdAt := now }

/-- Initial population (core/genetics/population module,
`createInitialPopulation`): `size` random genomes at generation 0, each
with its own fresh randomness. -/
noncomputable def createInitialPopulation (topology : Topology) (size : ℕ)
    (rnds : ℕ → ℕ → ℝ) (newIds : ℕ → String) (now : ℕ) : List Genome :=
  (List.range size).map (fun k => createRandomGenome topology 0 (rnds k) (newIds k) now)

/-! ## Selection (src/core/genetics/selection.ts) -/

/-- The explicit empty-pool error of `tournamentSelection`. -/
def emptySelectionMsg : String :=
  "Cannot select from empty creature array"

/-- The implicit JS TypeError raised by `[].reduce` without initial value. -/
def reduceEmptyMsg : String :=
  "Reduce of empty array with no initial value"

/-- Tournament selection (src/core/genetics/selection.ts,
`tournamentSelection`): after the explicit empty-pool guard, the loop
`for (let i = 0; i < tournamentSize; i++)` samples
`creatures[Math.floor(Math.random() * creatures.length)]` tournamentSize
times, then `reduce` keeps the fittest — throwing the TypeError when the
tournament is empty. For draws in [0,1) the floored index is always in
range, so the `getD` default is unreachable; the loop bound is the integer
tournamentSize. -/
noncomputable def tournamentSelection (creatures : List Creature)
    (tournamentSize : ℤ) (rnd : ℕ → ℝ) : Except String Creature :=
  if creatures.length = 0 then Except.error emptySelectionMsg
  else
    let tournament := (List.range tournamentSize.toNat).map (fun i =>
      creatures.getD (⌊rnd i * (creatures.length : ℝ)⌋).toNat default)
    match tournament with
    | [] => Except.error reduceEmptyMsg
    | first :: rest =>
      Except.ok (rest.foldl (fun best current =>
        if best.fitness.total < current.fitness.total then current else best) first)

/-! ## Concrete fixtures used by witnesses and counterexamples -/

/-- A free particle. -/
noncomputable def pFree : Particle :=
  { id := "a", pos := ⟨3, 4⟩, oldPos := ⟨1, 1⟩, mass := 2, radius := 1,
    isLocked := false, friction := 0, velocity := ⟨0, 0⟩ }

/-- A locked anchor particle. -/
noncomputable def pLocked : Particle :=
  { id := "anchor", pos := ⟨5, 6⟩, oldPos := ⟨5, 6⟩, mass := 1, radius := 1,
    isLocked := true, friction := 0, velocity := ⟨0, 0⟩ }

/-- A particle that has crossed the ground line. -/
noncomputable def pFalling : Particle :=
  { id := "b", pos := ⟨0, 10⟩, oldPos := ⟨0, 9⟩, mass := 1, radius := 1,
    isLocked := false, friction := 0, velocity := ⟨0, 0⟩ }

/-- A concrete ground. -/
noncomputable def groundW : Ground := { y := 8, friction := 0.2, restitution := 0.5 }

/-- Two coincident particles for the zero-length-constraint case. -/
noncomputable def pCoin1 : Particle :=
  { id := "p1", pos := ⟨1, 2⟩, oldPos := ⟨1, 2⟩, mass := 1, radius := 1,
    isLocked := false, friction := 0, velocity := ⟨0, 0⟩ }

/-- Second coincident particle. -/
noncomputable def pCoin2 : Particle :=
  { id := "p2", pos := ⟨1, 2⟩, oldPos := ⟨1, 2⟩, mass := 1, radius := 1,
    isLocked := false, friction := 0, velocity := ⟨0, 0⟩ }

/-- Lookup map holding the two coincident particles. -/
noncomputable def mapCoin : PMap :=
  fun k => if k = "p1" then some pCoin1 else if k = "p2" then some pCoin2 else none

/-- Lookup map holding only the locked anchor. -/
noncomputable def mapAnchor : PMap :=
  fun k => if k = "anchor" then some pLocked else none

/-- A constraint joining the two coincident particles. -/
noncomputable def conCoin : Constraint :=
  { id := "c", p1Id := "p1", p2Id := "p2", restLength := 5, stiffness := 0.8,
    damping := 0 }

/-- A muscle record for the one-muscle topology fixture. -/
noncomputable def mFix : Constraint :=
  { id := "m1", p1Id := "p1", p2Id := "p2", restLength := 10, stiffness := 0.9,
    damping := 0, isMuscle := true, baseLength := 10 }

/-- A topology with a single muscle. -/
noncomputable def topoFix : Topology :=
  { particles := [pCoin1, pCoin2], constraints := [], muscles := [mFix] }

/-- A concrete gene. -/
noncomputable def geneC3 : MuscleGene :=
  { muscleId := "m1", amplitude := 0.4, frequency := 1, phase := 0 }

/-- A one-gene genome for the mutation claims. -/
noncomputable def gC3 : Genome :=
  { id := "g", genes := [geneC3], generation := 0, parentIds := none, createdAt := 0 }

/-- First crossover parent gene. -/
noncomputable def geneA : MuscleGene :=
  { muscleId := "m1", amplitude := 0.3, frequency := 2, phase := 1 }

/-- Second crossover parent gene, same muscle. -/
noncomputable def geneB : MuscleGene :=
  { muscleId := "m1", amplitude := 0.6, frequency := 3, phase := 2 }

/-- First crossover parent. -/
noncomputable def gA : Genome :=
  { id := "A", genes := [geneA], generation := 0, parentIds := none, createdAt := 0 }

/-- Second crossover parent. -/
noncomputable def gB : Genome :=
  { id := "B", genes := [geneB], generation := 0, parentIds := none, createdAt := 0 }

/-- An empty genome, for the arity-mismatch witnesses. -/
noncomputable def gEmpty : Genome :=
  { id := "E", genes := [], generation := 0, parentIds := none, createdAt := 0 }

/-- A concrete fitness record. -/
noncomputable def fit1 : FitnessScore :=
  { total := 1, distance := 1, targetBonus := 0, efficiency := 0, stability := 0 }

/-- A concrete creature for the selection witnesses. -/
noncomputable def creatureW : Creature :=
  { id := "c0", genome := gA, particles := [pFree], constraints := [], muscles := [],
    fitness := fit1, isDead := false, startPos := ⟨0, 0⟩, currentPos := ⟨0, 0⟩,
    maxDistance := 0, reachedTarget := false, minHeadY := none }

/-- A concrete vertical wall. -/
noncomputable def wallW : Wall := { x := 2, normal := ⟨1, 0⟩ }

/-- The all-zeros random stream: Math.random() may return exactly 0. -/
def zeroStream : ℕ → ℝ := fun _ => 0

/-- The constant one-half random stream. -/
noncomputable def halfStream : ℕ → ℝ := fun _ => 0.5

/-- Fresh-genome id used where the source generates one. -/
def genomeIdW : String := "genome-w"

/-! ## Single-body step (src/core/physics/stepPhysics.ts, TS fallback path) -/

/-- Options of `stepPhysics` with the source's defaults. -/
structure StepPhysicsOptions where
  forceX : ℝ := 0
  forceY : ℝ := 0
  airResistance : ℝ := 0
  constraintIterations : ℕ := 3
  time : ℝ := 0
  skipMuscleUpdate : Bool := false

/-- One physics step of the TS fallback (src/core/physics/stepPhysics.ts,
`stepPhysics`): muscles, Verlet, constraints over bones ++ muscles, ground
collision, wall collision. The source's prebuilt `creature.particleMap`
shares its objects with the particle array, so the solver's mutations are
modelled by rebuilding the map after integration and reading the array
back from it by id. -/
noncomputable def stepPhysics (creature : Creature) (ground : Ground)
    (walls : List Wall) (dt : ℝ) (options : StepPhysicsOptions) : Creature :=
  let muscles1 :=
    if options.skipMuscleUpdate then creature.muscles
    else updateMuscles creature.muscles options.time
  let ps1 := integrateVerlet creature.particles ⟨options.forceX, options.forceY⟩ dt
    options.airResistance
  let m1 := createParticleMap ps1
  let m2 := satisfyConstraints (creature.constraints ++ muscles1) m1
    options.constraintIterations
  let ps2 := ps1.map (fun p => (m2 p.id).getD p)
  let ps3 := handleGroundCollision ps2 ground
  let ps4 := handleWallCollision ps3 walls
  { creature with particles := ps4, muscles := muscles1 }

/-! ## Batch engine glue (src/core/physics/wasmBatchGlue.ts)

The WASM linear memory is modelled as a byte-addressed store of f64 values:
`Buffer := ℕ → ℝ`, every address a multiple of 8. Fresh WASM memory is
zero-initialized. -/

/-- WASM linear memory viewed as f64 cells at byte addresses. -/
def Buffer : Type := ℕ → ℝ

/-- One `view.setFloat64` / `f64.store`. -/
def writeF64 (buf : Buffer) (addr : ℕ) (v : ℝ) : Buffer :=
  fun a => if a = addr then v else buf a

/-- A sequence of stores, performed left to right. -/
def writeAll (buf : Buffer) (ws : List (ℕ × ℝ)) : Buffer :=
  ws.foldl (fun b w => writeF64 b w.1 w.2) buf

/-- 9 f64 per particle (glue). -/
def PARTICLE_STRIDE : ℕ := 72

/-- 10 f64 per constraint or muscle (glue). -/
def CONSTRAINT_STRIDE : ℕ := 80

/-- 3 f64 per wall (glue). -/
def WALL_STRIDE : ℕ := 24

/-- 12 f64 per creature metadata record, as the glue lays it out. The WASM
kernels document and address a 16-f64 (128-byte) metadata record. -/
def METADATA_STRIDE : ℕ := 96

/-- Target-zone rectangle (inline type in the source). -/
structure TargetZone where
  x : ℝ
  y : ℝ
  width : ℝ
  height : ℝ
deriving Inhabited

/-- The flat memory layout (`computeLayout` in wasmBatchGlue.ts). -/
structure BatchLayout where
  creaturesOffset : ℕ
  wallsOffset : ℕ
  metadataOffset : ℕ
  creatureStride : ℕ
  numParticles : ℕ
  numConstraintsTotal : ℕ
  numConstraintsOnly : ℕ
  numMuscles : ℕ
  totalBytes : ℕ

/-- Computes the flat memory layout for all creatures
(wasmBatchGlue.ts, `computeLayout`). -/
def computeLayout (numCreatures numParticles numConstraintsOnly numMuscles numWalls : ℕ) :
    BatchLayout :=
  let numConstraintsTotal := numConstraintsOnly + numMuscles
  let creatureStride :=
    numParticles * PARTICLE_STRIDE + numConstraintsTotal * CONSTRAINT_STRIDE
  let creaturesOffset := 0
  let wallsOffset := creaturesOffset + numCreatures * creatureStride
  let metadataOffset := wallsOffset + numWalls * WALL_STRIDE
  let totalBytes := metadataOffset + numCreatures * METADATA_STRIDE
  { creaturesOffset := creaturesOffset, wallsOffset := wallsOffset,
    metadataOffset := metadataOffset, creatureStride := creatureStride,
    numParticles := numParticles, numConstraintsTotal := numConstraintsTotal,
    numConstraintsOnly := numConstraintsOnly, numMuscles := numMuscles,
    totalBytes := totalBytes }

/-- The id-to-index map built from the first creature
(`first.particles.forEach((p, i) => idToIndex.set(p.id, i))` with the
`?? 0` default on lookup, a later duplicate id overwriting an earlier
index). -/
def idToIndexOf (particles : List Particle) : String → ℕ := fun id =>
  ((particles.foldl (fun (acc : ℕ × (String → Option ℕ)) p =>
      (acc.1 + 1, fun k => if k = p.id then some acc.1 else acc.2 k))
    (0, fun _ => none)).2 id).getD 0

/-- `first.particles.findIndex(p => p.id === 'head')`: the first index of
the head particle, −1 when absent. -/
def findHeadIdx (particles : List Particle) : ℤ :=
  match particles.findIdx? (fun p => p.id = "head") with
  | some i => (i : ℤ)
  | none => -1

/-- The particle stores of `syncToWasm`. -/
def particleWrites (off : ℕ) (p : Particle) : List (ℕ × ℝ) :=
  [(off, p.pos.x), (off + 8, p.pos.y), (off + 16, p.oldPos.x), (off + 24, p.oldPos.y),
   (off + 32, p.mass), (off + 40, p.radius), (off + 48, if p.isLocked then 1 else 0),
   (off + 56, p.velocity.x), (off + 64, p.velocity.y)]

/-- The passive-constraint stores of `syncToWasm`: currentLength is the
restLength for bones, isMuscle = 0, oscillation fields zeroed. -/
def constraintWrites (idToIndex : String → ℕ) (off : ℕ) (con : Constraint) :
    List (ℕ × ℝ) :=
  [(off, (idToIndex con.p1Id : ℝ)), (off + 8, (idToIndex con.p2Id : ℝ)),
   (off + 16, con.restLength), (off + 24, con.stiffness), (off + 32, con.restLength),
   (off + 40, 0), (off + 48, 0), (off + 56, 0), (off + 64, 0), (off + 72, 0)]

/-- The muscle stores of `syncToWasm`: stiffness is the batch option
muscleStiffness, isMuscle = 1, oscillation fields marshalled. -/
def muscleWrites (idToIndex : String → ℕ) (muscleStiffness : ℝ) (off : ℕ)
    (m : Constraint) : List (ℕ × ℝ) :=
  [(off, (idToIndex m.p1Id : ℝ)), (off + 8, (idToIndex m.p2Id : ℝ)),
   (off + 16, m.restLength), (off + 24, muscleStiffness), (off + 32, m.currentLength),
   (off + 40, 1), (off + 48, m.baseLength), (off + 56, m.amplitude),
   (off + 64, m.frequency), (off + 72, m.phase)]

/-- The metadata stores of `syncToWasm`, at the glue's 96-byte stride:
isDead, headIdx, startX, currentX, currentY, maxDistance, minHeadY
(defaulting to the head particle's current y), reachedTarget, and the
target-zone rectangle — 12 f64. -/
noncomputable def metadataWrites (metaOff : ℕ) (creature : Creature) (headIdx : ℤ)
    (targetZone : TargetZone) : List (ℕ × ℝ) :=
  [(metaOff, if creature.isDead then 1 else 0),
   (metaOff + 8, (headIdx : ℝ)),
   (metaOff + 16, creature.startPos.x),
   (metaOff + 24, creature.currentPos.x),
   (metaOff + 32, creature.currentPos.y),
   (metaOff + 40, creature.maxDistance),
   (metaOff + 48, creature.minHeadY.getD
      ((creature.particles.getD headIdx.toNat default).pos.y)),
   (metaOff + 56, if creature.reachedTarget then 1 else 0),
   (metaOff + 64, targetZone.x), (metaOff + 72, targetZone.y),
   (metaOff + 80, targetZone.width), (metaOff + 88, targetZone.height)]

/-- The wall stores of `syncToWasm`. -/
def wallWrites (off : ℕ) (w : Wall) : List (ℕ × ℝ) :=
  [(off, w.x), (off + 8, w.normal.x), (off + 16, w.normal.y)]

/-- All stores of one creature: particles, then bones, then muscles, then
its metadata record. -/
noncomputable def creatureWrites (layout : BatchLayout) (idToIndex : String → ℕ)
    (headIdx : ℤ) (muscleStiffness : ℝ) (targetZone : TargetZone) (c : ℕ)
    (creature : Creature) : List (ℕ × ℝ) :=
  let baseOff := layout.creaturesOffset + c * layout.creatureStride
  let constraintsOff := baseOff + layout.numParticles * PARTICLE_STRIDE
  ((List.range layout.numParticles).map (fun i =>
      particleWrites (baseOff + i * PARTICLE_STRIDE)
        (creature.particles.getD i default))).flatten
    ++ ((List.range layout.numConstraintsOnly).map (fun i =>
      constraintWrites idToIndex (constraintsOff + i * CONSTRAINT_STRIDE)
        (creature.constraints.getD i default))).flatten
    ++ ((List.range layout.numMuscles).map (fun i =>
      muscleWrites idToIndex muscleStiffness
        (constraintsOff + (layout.numConstraintsOnly + i) * CONSTRAINT_STRIDE)
        (creature.muscles.getD i default))).flatten
    ++ metadataWrites (layout.metadataOffset + c * METADATA_STRIDE) creature headIdx
        targetZone

/-- `syncToWasm` (wasmBatchGlue.ts): marshal every creature then the walls
into linear memory. -/
noncomputable def syncToWasm (buf : Buffer) (creatures : List Creature)
    (walls : List Wall) (targetZone : TargetZone) (layout : BatchLayout)
    (idToIndex : String → ℕ) (headIdx : ℤ) (muscleStiffness : ℝ) : Buffer :=
  writeAll buf
    (((List.range creatures.length).map (fun c =>
        creatureWrites layout idToIndex headIdx muscleStiffness targetZone c
          (creatures.getD c default))).flatten
      ++ ((List.range walls.length).map (fun i =>
        wallWrites (layout.wallsOffset + i * WALL_STRIDE) (walls.getD i default))).flatten)

/-- `syncFromWasm` (wasmBatchGlue.ts): read back metadata (isDead,
currentPos, maxDistance, minHeadY, reachedTarget), particle pos / oldPos /
velocity, and muscle currentLength, at the glue's strides. -/
noncomputable def syncFromWasm (buf : Buffer) (creatures : List Creature)
    (layout : BatchLayout) : List Creature :=
  (List.range creatures.length).map (fun c =>
    let creature := creatures.getD c default
    let baseOff := layout.creaturesOffset + c * layout.creatureStride
    let metaOff := layout.metadataOffset + c * METADATA_STRIDE
    let constraintsOff := baseOff + layout.numParticles * PARTICLE_STRIDE
    { creature with
        isDead := decide (buf metaOff ≠ 0),
        currentPos := ⟨buf (metaOff + 24), buf (metaOff + 32)⟩,
        maxDistance := buf (metaOff + 40),
        minHeadY := some (buf (metaOff + 48)),
        reachedTarget := decide (buf (metaOff + 56) ≠ 0),
        particles := (List.range layout.numParticles).map (fun i =>
          let p := creature.particles.getD i default
          let off := baseOff + i * PARTICLE_STRIDE
          { p with pos := ⟨buf off, buf (off + 8)⟩,
                   oldPos := ⟨buf (off + 16), buf (off + 24)⟩,
                   velocity := ⟨buf (off + 56), buf (off + 64)⟩ }),
        muscles := (List.range layout.numMuscles).map (fun i =>
          let m := creature.muscles.getD i default
          let mOff := constraintsOff + (layout.numConstraintsOnly + i) * CONSTRAINT_STRIDE
          { m with currentLength := buf (mOff + 32) }) })

/-! ## WASM kernels (src/src-wasm/scripts/physics-scripts.wat)

The f64 arithmetic of the kernels is idealized over ℝ exactly as the TS
embedding, with the WAT constants 0x1.921fb54442d18p+2 and
0x1.47ae147ae147bp-7 read as 2π and 0.01. -/

/-- `i32.trunc_sat_f64_u`: floor, saturated to [0, 2³²−1]. -/
noncomputable def truncSatU (x : ℝ) : ℕ :=
  min (⌊x⌋.toNat) (2 ^ 32 - 1)

/-- Per-particle body of the WAT `integrate_verlet` loop: skip when the
isLocked cell is non-zero, else the Verlet update, all loads performed
before the stores. -/
noncomputable def kernelIntegrateOne (forceX forceY dt : ℝ) (buf : Buffer) (off : ℕ) :
    Buffer :=
  if buf (off + 48) ≠ 0 then buf
  else
    let vx := buf off - buf (off + 16)
    let vy := buf (off + 8) - buf (off + 24)
    let mass := buf (off + 32)
    let ax := forceX / mass
    let ay := forceY / mass
    let newPosX := buf off + vx + ax * (dt * dt)
    let newPosY := buf (off + 8) + vy + ay * (dt * dt)
    writeAll buf
      [(off + 16, buf off), (off + 24, buf (off + 8)),
       (off, newPosX), (off + 8, newPosY),
       (off + 56, vx / dt), (off + 64, vy / dt)]

/-- Per-particle body of the WAT air-resistance pass. -/
noncomputable def kernelDampOne (dampingFactor : ℝ) (buf : Buffer) (off : ℕ) : Buffer :=
  if buf (off + 48) = 0 then
    let vx := buf off - buf (off + 16)
    let vy := buf (off + 8) - buf (off + 24)
    let dampedVx := vx * dampingFactor
    let dampedVy := vy * dampingFactor
    writeAll buf
      [(off + 16, buf off - dampedVx), (off + 24, buf (off + 8) - dampedVy),
       (off + 56, dampedVx), (off + 64, dampedVy)]
  else buf

/-- WAT `integrate_verlet`: per-particle Verlet pass, then the damping pass
when airResistance > 0 (the early return at numParticles = 0 is the empty
loop). -/
noncomputable def kernel_integrate_verlet (buf : Buffer)
    (particlesOffset numParticles : ℕ) (forceX forceY dt airResistance : ℝ) : Buffer :=
  let buf1 := (List.range numParticles).foldl
    (fun b i => kernelIntegrateOne forceX forceY dt b (particlesOffset + i * 72)) buf
  if 0 < airResistance then
    (List.range numParticles).foldl
      (fun b i => kernelDampOne (1 - airResistance) b (particlesOffset + i * 72)) buf1
  else buf1

/-- Per-muscle body of the WAT `update_muscles` loop: only records whose
isMuscle cell is non-zero are updated. -/
noncomputable def kernelMuscleOne (time : ℝ) (buf : Buffer) (off : ℕ) : Buffer :=
  if buf (off + 40) ≠ 0 then
    let baseLength := buf (off + 48)
    let amplitude := buf (off + 56)
    let frequency := buf (off + 64)
    let phase := buf (off + 72)
    let arg := time * frequency * (2 * Real.pi) + phase
    let oscillation := Real.sin arg * amplitude
    writeF64 buf (off + 32) (baseLength * (1 + oscillation))
  else buf

/-- WAT `update_muscles`. -/
noncomputable def kernel_update_muscles (buf : Buffer)
    (constraintsOffset numMuscles : ℕ) (time : ℝ) : Buffer :=
  (List.range numMuscles).foldl
    (fun b i => kernelMuscleOne time b (constraintsOffset + i * 80)) buf

/-- Per-constraint body of the WAT `satisfy_constraints` loop: explicit
skip at distance 0, dead-band skip, endpoint positions and locked flags all
loaded before any store. -/
noncomputable def kernelConstraintOne (particlesOffset : ℕ) (buf : Buffer) (coff : ℕ) :
    Buffer :=
  let p1Idx := truncSatU (buf coff)
  let p2Idx := truncSatU (buf (coff + 8))
  let p1Off := particlesOffset + p1Idx * 72
  let p2Off := particlesOffset + p2Idx * 72
  let x1 := buf p1Off
  let y1 := buf (p1Off + 8)
  let x2 := buf p2Off
  let y2 := buf (p2Off + 8)
  let dx := x2 - x1
  let dy := y2 - y1
  let dist := Real.sqrt (dx * dx + dy * dy)
  if dist = 0 then buf
  else
    let targetLen := buf (coff + 32)
    let diff := dist - targetLen
    if |diff| < 0.01 then buf
    else
      let stiffness := buf (coff + 24)
      let dirX := dx / dist
      let dirY := dy / dist
      let corrX := dirX * diff * stiffness
      let corrY := dirY * diff * stiffness
      let m1 := buf (p1Off + 32)
      let m2 := buf (p2Off + 32)
      let totalMass := m1 + m2
      let share1 := m2 / totalMass
      let share2 := m1 / totalMass
      let isLocked1 := buf (p1Off + 48)
      let isLocked2 := buf (p2Off + 48)
      let buf1 :=
        if isLocked1 = 0 then
          writeAll buf [(p1Off, x1 + corrX * share1), (p1Off + 8, y1 + corrY * share1)]
        else buf
      if isLocked2 = 0 then
        writeAll buf1 [(p2Off, x2 - corrX * share2), (p2Off + 8, y2 - corrY * share2)]
      else buf1

/-- WAT `satisfy_constraints`: `iterations` (signed, non-positive means no
pass) passes over all constraint records. -/
noncomputable def kernel_satisfy_constraints (buf : Buffer)
    (particlesOffset constraintsOffset numConstraints : ℕ) (iterations : ℤ) : Buffer :=
  (List.range iterations.toNat).foldl (fun b _ =>
    (List.range numConstraints).foldl
      (fun b2 c => kernelConstraintOne particlesOffset b2 (constraintsOffset + c * 80)) b)
    buf

/-- Per-particle body of the WAT `ground_collision` loop. -/
noncomputable def kernelGroundOne (groundY friction restitution : ℝ) (buf : Buffer)
    (off : ℕ) : Buffer :=
  if buf (off + 48) ≠ 0 then buf
  else
    let radius := buf (off + 40)
    let posY := buf (off + 8)
    let newPosY := groundY - radius
    if posY ≤ newPosY then buf
    else
      let vx := buf off - buf (off + 16)
      let vy := posY - buf (off + 24)
      let frictionForce := vx * friction
      let newOldPosY :=
        if vy < 0 then newPosY - vy * 0.95 else newPosY + vy * restitution
      let newOldPosX := buf off - vx + frictionForce
      writeAll buf
        [(off + 8, newPosY), (off + 16, newOldPosX), (off + 24, newOldPosY),
         (off + 56, (buf off - newOldPosX) / 0.016),
         (off + 64, (newPosY - newOldPosY) / 0.016)]

/-- WAT `ground_collision`. -/
noncomputable def kernel_ground_collision (buf : Buffer)
    (particlesOffset numParticles : ℕ) (groundY friction restitution : ℝ) : Buffer :=
  (List.range numParticles).foldl
    (fun b i => kernelGroundOne groundY friction restitution b (particlesOffset + i * 72))
    buf

/-- Per-particle body of the WAT `wall_collision` loop: radius loaded once
per particle, the position re-loaded per wall, |distToWall| computed as
sqrt of the square. -/
noncomputable def kernelWallOne (wallsOffset numWalls : ℕ) (buf : Buffer) (poff : ℕ) :
    Buffer :=
  if buf (poff + 48) ≠ 0 then buf
  else
    let radius := buf (poff + 40)
    (List.range numWalls).foldl (fun b w =>
      let woff := wallsOffset + w * 24
      let wallX := b woff
      let normalX := b (woff + 8)
      let distToWall := b poff - wallX
      if Real.sqrt (distToWall * distToWall) < radius ∧ distToWall * normalX < 0 then
        let b1 := writeF64 b poff (wallX + normalX * radius)
        let vx := b1 poff - b1 (poff + 16)
        writeF64 b1 (poff + 16) (b1 poff - vx * 0.5)
      else b) buf

/-- WAT `wall_collision`. -/
noncomputable def kernel_wall_collision (buf : Buffer)
    (particlesOffset numParticles wallsOffset numWalls : ℕ) : Buffer :=
  (List.range numParticles).foldl
    (fun b i => kernelWallOne wallsOffset numWalls b (particlesOffset + i * 72)) buf

/-- WAT `step_all_creatures`: for each creature, skip when the f64 loaded
at metadataOffset + c·128 (the kernel's isDead cell — the kernel addresses
metadata at a 128-byte stride) is non-zero, else run muscles → Verlet →
constraints → ground → walls on that creature's region. -/
noncomputable def step_all_creatures (buf : Buffer)
    (creaturesOffset numCreatures numParticles numConstraints numMuscles
      wallsOffset numWalls metadataOffset : ℕ)
    (groundY groundFriction groundRestitution forceX forceY dt airResistance time : ℝ)
    (constraintIterations : ℤ) : Buffer :=
  let creatureStride := numParticles * 72 + numConstraints * 80
  (List.range numCreatures).foldl (fun b c =>
    let metaOff := metadataOffset + c * 128
    if b metaOff ≠ 0 then b
    else
      let particlesOff := creaturesOffset + c * creatureStride
      let constraintsOff := particlesOff + numParticles * 72
      let musclesOff := constraintsOff + (numConstraints - numMuscles) * 80
      let b1 := kernel_update_muscles b musclesOff numMuscles time
      let b2 := kernel_integrate_verlet b1 particlesOff numParticles forceX forceY dt
        airResistance
      let b3 := kernel_satisfy_constraints b2 particlesOff constraintsOff numConstraints
        constraintIterations
      let b4 := kernel_ground_collision b3 particlesOff numParticles groundY
        groundFriction groundRestitution
      kernel_wall_collision b4 particlesOff numParticles wallsOffset numWalls) buf

/-- WAT `post_step_creatures` (eight parameters): per creature at the
128-byte metadata stride — skip when dead, head-death check (marking dead
and moving on), minHeadY update, mass-weighted center of mass into
currentX/currentY, running max of centerX, sticky target-zone flag, and
the gait counters totalSteps / headYSum / headYSumSq / airborneSteps at
metadata offsets +104 / +112 / +120 / +96. -/
noncomputable def post_step_creatures (buf : Buffer)
    (creaturesOffset numCreatures numParticles numConstraints metadataOffset : ℕ)
    (groundY : ℝ) (leftFootIdx rightFootIdx : ℕ) : Buffer :=
  let creatureStride := numParticles * 72 + numConstraints * 80
  (List.range numCreatures).foldl (fun b c =>
    let metaOff := metadataOffset + c * 128
    if b metaOff ≠ 0 then b
    else
      let particlesOff := creaturesOffset + c * creatureStride
      let headIdx := truncSatU (b (metaOff + 8))
      let headOff := particlesOff + headIdx * 72
      let headY := b (headOff + 8)
      let headRadius := b (headOff + 40)
      if groundY - headRadius ≤ headY then writeF64 b metaOff 1
      else
        let b1 := if headY < b (metaOff + 48) then writeF64 b (metaOff + 48) headY else b
        let com := (List.range numParticles).foldl (fun (acc : ℝ × ℝ × ℝ) p =>
          let pOff := particlesOff + p * 72
          let mass := b1 (pOff + 32)
          (acc.1 + mass, acc.2.1 + b1 pOff * mass, acc.2.2 + b1 (pOff + 8) * mass))
          (0, 0, 0)
        let centerX := com.2.1 / com.1
        let b2 := writeF64 (writeF64 b1 (metaOff + 24) centerX) (metaOff + 32)
          (com.2.2 / com.1)
        let b3 := if b2 (metaOff + 40) < centerX then writeF64 b2 (metaOff + 40) centerX
          else b2
        let b4 :=
          if b3 (metaOff + 56) = 0 then
            let targetX := b3 (metaOff + 64)
            let targetY := b3 (metaOff + 72)
            let targetW := b3 (metaOff + 80)
            let targetH := b3 (metaOff + 88)
            if (List.range numParticles).any (fun p =>
                let pOff := particlesOff + p * 72
                decide (targetX ≤ b3 pOff ∧ b3 pOff ≤ targetX + targetW ∧
                  targetY ≤ b3 (pOff + 8) ∧ b3 (pOff + 8) ≤ targetY + targetH))
            then writeF64 b3 (metaOff + 56) 1
            else b3
          else b3
        let b5 := writeF64 b4 (metaOff + 104) (b4 (metaOff + 104) + 1)
        let b6 := writeF64 b5 (metaOff + 112) (b5 (metaOff + 112) + headY)
        let b7 := writeF64 b6 (metaOff + 120) (b6 (metaOff + 120) + headY * headY)
        let lFootOff := particlesOff + leftFootIdx * 72
        let rFootOff := particlesOff + rightFootIdx * 72
        if b7 (lFootOff + 8) < groundY - b7 (lFootOff + 40) ∧
            b7 (rFootOff + 8) < groundY - b7 (rFootOff + 40) then
          writeF64 b7 (metaOff + 96) (b7 (metaOff + 96) + 1)
        else b7) buf

/-- The batch options of `stepPhysicsBatch`. -/
structure BatchPhysicsOptions where
  forceX : ℝ
  forceY : ℝ
  airResistance : ℝ
  constraintIterations : ℤ
  muscleStiffness : ℝ

/-- `stepPhysicsBatch` (wasmBatchGlue.ts): `none` models the `return false`
fallback (no module, empty population, or numSteps ≤ 0); otherwise compute
the layout from the first creature, marshal everything into the
zero-initialized memory, run numSteps iterations of `step_all_creatures`
then `post_step_creatures`, advancing time by dt, and marshal back. The
glue passes only six arguments to the eight-parameter
`post_step_creatures`; the JS-to-WASM coercion turns the two missing i32
foot-index arguments into 0. -/
noncomputable def stepPhysicsBatch (creatures : List Creature) (ground : Ground)
    (walls : List Wall) (targetZone : TargetZone) (numSteps : ℕ) (startTime dt : ℝ)
    (options : BatchPhysicsOptions) : Option (List Creature) :=
  if creatures.length = 0 ∨ numSteps = 0 then none
  else
    let first := creatures.getD 0 default
    let numParticles := first.particles.length
    let numConstraintsOnly := first.constraints.length
    let numMuscles := first.muscles.length
    let layout := computeLayout creatures.length numParticles numConstraintsOnly
      numMuscles walls.length
    let idToIndex := idToIndexOf first.particles
    let headIdx := findHeadIdx first.particles
    let buf0 := syncToWasm (fun _ => 0) creatures walls targetZone layout idToIndex
      headIdx options.muscleStiffness
    let result := (List.range numSteps).foldl (fun (st : Buffer × ℝ) _ =>
      let b1 := step_all_creatures st.1 layout.creaturesOffset creatures.length
        numParticles layout.numConstraintsTotal numMuscles layout.wallsOffset
        walls.length layout.metadataOffset ground.y ground.friction ground.restitution
        options.forceX options.forceY dt options.airResistance st.2
        options.constraintIterations
      let b2 := post_step_creatures b1 layout.creaturesOffset creatures.length
        numParticles layout.numConstraintsTotal layout.metadataOffset ground.y 0 0
      (b2, st.2 + dt)) (buf0, startTime)
    some (syncFromWasm result.1 creatures layout)

/-! ## Batch-parity fixtures -/

/-- The head particle of the parity population. -/
noncomputable def headP : Particle :=
  { id := "head", pos := ⟨0, 50⟩, oldPos := ⟨0, 50⟩, mass := 1, radius := 1,
    isLocked := false, friction := 0, velocity := ⟨0, 0⟩ }

/-- First creature of the parity population. -/
noncomputable def batchCreature0 : Creature :=
  { id := "b0", genome := gEmpty, particles := [headP], constraints := [], muscles := [],
    fitness := fit1, isDead := false, startPos := ⟨0, 50⟩, currentPos := ⟨0, 50⟩,
    maxDistance := 0, reachedTarget := false, minHeadY := none }

/-- Second creature of the parity population, identical topology. -/
noncomputable def batchCreature1 : Creature := { batchCreature0 with id := "b1" }

/-- Ground far below the population. -/
noncomputable def batchGround : Ground := { y := 1000, friction := 0.2, restitution := 0 }

/-- Target zone far to the right. -/
noncomputable def batchTarget : TargetZone :=
  { x := 100000, y := 0, width := 100, height := 80 }

/-- Batch options: downward force 10, three solver iterations. -/
noncomputable def batchOptions : BatchPhysicsOptions :=
  { forceX := 0, forceY := 10, airResistance := 0, constraintIterations := 3,
    muscleStiffness := 0.9 }

/-- The matching single-body step options. -/
noncomputable def stepOptionsW : StepPhysicsOptions :=
  { forceX := 0, forceY := 10, airResistance := 0, constraintIterations := 3,
    time := 0, skipMuscleUpdate := false }

/-- The linear memory after marshalling the two-creature parity population
(syncToWasm on zeroed memory with the layout the glue computes). -/
noncomputable def B0w : Buffer :=
  syncToWasm (fun _ => 0) [batchCreature0, batchCreature1] [] batchTarget
    (computeLayout 2 1 0 0 0) (idToIndexOf [headP]) (findHeadIdx [headP]) 0.9

/-- The memory after one `step_all_creatures` call on the marshalled
population: only creature 0's particle cells change (proved below). -/
noncomputable def B1w : Buffer :=
  writeAll B0w [(16, 0), (24, 50), (0, 0), (8, 60), (56, 0), (64, 0)]

/-- The memory after the following `post_step_creatures` call: creature 0's
bookkeeping lands at the kernel's 128-byte metadata stride, overwriting the
cells the glue reads back as creature 1's metadata (proved below). -/
noncomputable def B2w : Buffer :=
  writeAll B1w [(168, 0), (176, 60), (248, 1), (256, 60), (264, 3600), (240, 1)]

end EvoWalker

namespace EvoWalker

/-! ## Theorems -/

/-- C6: one call of integrateVerlet with force (0,0) and airResistance 0
preserves the per-component difference pos − oldPos (the implicit velocity)
of every unlocked particle, for every dt and every particle mass admitted
by the data model (mass > 0). -/
theorem unforced_integration_preserves_velocity (particles : List Particle) (dt : ℝ) (i : ℕ)
    (p : Particle) (hp : particles[i]? = some p) (hl : p.isLocked = false)
    (hm : 0 < p.mass) :
    ((integrateVerlet particles ⟨0, 0⟩ dt 0)[i]?.map
        (fun q => (q.pos.x - q.oldPos.x, q.pos.y - q.oldPos.y))) =
      some (p.pos.x - p.oldPos.x, p.pos.y - p.oldPos.y) := by
  have hm0 : p.mass ≠ 0 := ne_of_gt hm
  simp only [integrateVerlet]
  rw [if_neg (by norm_num : ¬ (0:ℝ) < 0)]
  rw [List.getElem?_map, hp]
  simp only [Option.map_some', hl, Bool.false_eq_true, if_false, Option.some.injEq,
    Prod.mk.injEq]
  constructor <;> · field_simp

/-- Witness for C6 at a concrete unlocked particle. -/
theorem unforced_integration_preserves_velocity_witness :
    0 < pFree.mass ∧
      ((integrateVerlet [pFree] ⟨0, 0⟩ (1 / 60) 0)[0]?.map
          (fun q => (q.pos.x - q.oldPos.x, q.pos.y - q.oldPos.y))) =
        some (pFree.pos.x - pFree.oldPos.x, pFree.pos.y - pFree.oldPos.y) :=
  ⟨by norm_num [pFree],
    unforced_integration_preserves_velocity [pFree] (1 / 60) 0 pFree rfl rfl
      (by norm_num [pFree])⟩

/-- C2: the claim asserts each field of a createRandomGenome gene lies in
the mutation clamp bounds (amplitude in [0.05, 0.8]); the code draws
amplitude = random·1 + 0.5 ∈ [0.5, 1.5), so the legal draw 0.5 yields
amplitude 1, outside the bound — the inline comments (0.1..0.6) promise
the claimed ranges, so this is a defect of the code. -/
theorem createRandomGenome_amplitude_exceeds_bound :
    ((createRandomGenome topoFix 0 halfStream genomeIdW 0).genes.map
        MuscleGene.amplitude = [1]) ∧
      ¬ ((1 : ℝ) ≤ 0.8) ∧ (0 ≤ halfStream 0 ∧ halfStream 0 < 1) := by
  refine ⟨?_, by norm_num, by norm_num [halfStream]⟩
  simp [createRandomGenome, randomGenes, topoFix, mFix, halfStream]
  norm_num

/-- C3 counterexample: with mutationRate = 0 and the legal random stream
that draws exactly 0, the gate `Math.random() > 0` is false, so the gene is
perturbed: input amplitude 0.4 comes back as 0.36. -/
theorem mutateGenome_rate_zero_changes_gene :
    ((mutateGenome gC3 0 0.1 zeroStream).genes.map MuscleGene.amplitude = [0.36]) ∧
      (gC3.genes.map MuscleGene.amplitude = [0.4]) ∧
      (∀ i, 0 ≤ zeroStream i ∧ zeroStream i < 1) := by
  refine ⟨?_, by simp [gC3, geneC3], fun i => by norm_num [zeroStream]⟩
  simp [mutateGenome, mutateGenes, mutateValue, gC3, geneC3, zeroStream]
  norm_num

/-- C3 amended: mutateGenome with mutationRate = 0 returns genes identical
to the input whenever every gate draw of the stream is strictly positive
(Math.random() may return exactly 0, in which case the gene is perturbed);
with mutationRate = 1 and draws below 1 every field of every returned gene
lies within its documented bounds, regardless of mutationStrength. -/
theorem mutateGenome_amended :
    (∀ (g : Genome) (strength : ℝ) (rnd : ℕ → ℝ),
       (∀ i, 0 < rnd i) → (mutateGenome g 0 strength rnd).genes = g.genes) ∧
    (∀ (g : Genome) (strength : ℝ) (rnd : ℕ → ℝ),
       (∀ i, rnd i < 1) →
       ∀ gene ∈ (mutateGenome g 1 strength rnd).genes,
         (0.05 ≤ gene.amplitude ∧ gene.amplitude ≤ 0.8) ∧
         (0.1 ≤ gene.frequency ∧ gene.frequency ≤ 5.0) ∧
         (0 ≤ gene.phase ∧ gene.phase ≤ Real.pi * 2)) := by
  constructor
  · intro g strength rnd hpos
    suffices h : ∀ (l : List MuscleGene) (n : ℕ), mutateGenes 0 strength rnd n l = l by
      exact h g.genes 0
    intro l
    induction l with
    | nil => intro n; rfl
    | cons gene t ih =>
      intro n
      rw [mutateGenes, if_pos (hpos n)]
      exact congrArg (gene :: ·) (ih (n + 1))
  · intro g strength rnd hlt
    suffices h : ∀ (l : List MuscleGene) (n : ℕ),
        ∀ gene ∈ mutateGenes 1 strength rnd n l,
          (0.05 ≤ gene.amplitude ∧ gene.amplitude ≤ 0.8) ∧
          (0.1 ≤ gene.frequency ∧ gene.frequency ≤ 5.0) ∧
          (0 ≤ gene.phase ∧ gene.phase ≤ Real.pi * 2) by
      exact h g.genes 0
    intro l
    induction l with
    | nil => intro n gene h; simp [mutateGenes] at h
    | cons gene0 t ih =>
      intro n gene h
      rw [mutateGenes, if_neg (by exact not_lt.mpr (le_of_lt (hlt n)))] at h
      rcases List.mem_cons.mp h with h1 | h2
      · subst h1
        refine ⟨⟨le_max_left _ _, max_le (by norm_num) (min_le_left _ _)⟩,
          ⟨le_max_left _ _, max_le (by norm_num) (min_le_left _ _)⟩,
          ⟨le_max_left _ _, max_le (by positivity) (min_le_left _ _)⟩⟩
      · exact ih (n + 4) gene h2

/-- Witness for the amended C3 theorem: both parts applied to the concrete
one-gene genome and the constant one-half stream, whose draws are strictly
positive and below 1; with mutationRate = 1 the draw 0.5 gives change 0,
so the returned gene is geneC3 itself, whose fields the bounds then cover. -/
theorem mutateGenome_amended_witness :
    (mutateGenome gC3 0 0.1 halfStream).genes = gC3.genes ∧
      ((0.05 ≤ geneC3.amplitude ∧ geneC3.amplitude ≤ 0.8) ∧
       (0.1 ≤ geneC3.frequency ∧ geneC3.frequency ≤ 5.0) ∧
       (0 ≤ geneC3.phase ∧ geneC3.phase ≤ Real.pi * 2)) :=
  ⟨mutateGenome_amended.1 gC3 0.1 halfStream (fun i => by norm_num [halfStream]),
    mutateGenome_amended.2 gC3 0.1 halfStream (fun i => by norm_num [halfStream]) geneC3
      (by
        have h2 : (0:ℝ) ≤ Real.pi * 2 := by positivity
        simp [mutateGenome, mutateGenes, mutateValue, gC3, geneC3, halfStream]
        norm_num [min_eq_right h2])⟩

/-- Helper: blending with clamped α = 1 reproduces the first gene list when
lengths agree. -/
theorem blendGenes_one (l1 l2 : List MuscleGene) (h : l1.length = l2.length) :
    blendGenes 1 l1 l2 = l1 := by
  induction l1 generalizing l2 with
  | nil => rfl
  | cons g1 t1 ih =>
    cases l2 with
    | nil => simp at h
    | cons g2 t2 =>
      rw [blendGenes]
      refine congrArg₂ (· :: ·) ?_ (ih t2 (by simpa using h))
      refine MuscleGene.ext rfl ?_ ?_ ?_ <;> simp

/-- Helper: blending with clamped α = 0 reproduces the second gene list when
lengths agree and the lists are same-muscle-ordered. -/
theorem blendGenes_zero (l1 l2 : List MuscleGene) (h : l1.length = l2.length)
    (hm : ∀ (i : ℕ) (g1 g2 : MuscleGene), l1[i]? = some g1 → l2[i]? = some g2 →
      g1.muscleId = g2.muscleId) :
    blendGenes 0 l1 l2 = l2 := by
  induction l1 generalizing l2 with
  | nil =>
    cases l2 with
    | nil => rfl
    | cons g2 t2 => simp at h
  | cons g1 t1 ih =>
    cases l2 with
    | nil => simp at h
    | cons g2 t2 =>
      rw [blendGenes]
      refine congrArg₂ (· :: ·) ?_
        (ih t2 (by simpa using h)
          (fun i a b ha hb => hm (i + 1) a b (by simpa using ha) (by simpa using hb)))
      have hid : g1.muscleId = g2.muscleId := hm 0 g1 g2 (by simp) (by simp)
      refine MuscleGene.ext hid ?_ ?_ ?_ <;> simp

/-- C4: for equal-length, same-muscle-ordered parents, arithmeticCrossover
with α = 1 returns exactly parent1's gene list and with α = 0 exactly
parent2's gene list. -/
theorem arithmeticCrossover_alpha_endpoints (parent1 parent2 : Genome)
    (newId : String) (now : ℕ)
    (hlen : parent1.genes.length = parent2.genes.length)
    (hord : ∀ (i : ℕ) (g1 g2 : MuscleGene), parent1.genes[i]? = some g1 →
      parent2.genes[i]? = some g2 → g1.muscleId = g2.muscleId) :
    (Except.map Genome.genes (arithmeticCrossover parent1 parent2 1 newId now) =
      Except.ok parent1.genes) ∧
    (Except.map Genome.genes (arithmeticCrossover parent1 parent2 0 newId now) =
      Except.ok parent2.genes) := by
  have hne : ¬ parent1.genes.length ≠ parent2.genes.length := not_ne_iff.mpr hlen
  constructor
  · rw [arithmeticCrossover, if_neg hne]
    have hα : max (0:ℝ) (min 1 1) = 1 := by norm_num
    simp only [hα, Except.map, blendGenes_one _ _ hlen]
  · rw [arithmeticCrossover, if_neg hne]
    have hα : max (0:ℝ) (min 1 0) = 0 := by norm_num
    simp only [hα, Except.map, blendGenes_zero _ _ hlen hord]

/-- Witness for C4 at the concrete one-gene parents sharing muscle m1. -/
theorem arithmeticCrossover_alpha_endpoints_witness :
    (Except.map Genome.genes (arithmeticCrossover gA gB 1 genomeIdW 0) =
      Except.ok gA.genes) ∧
    (Except.map Genome.genes (arithmeticCrossover gA gB 0 genomeIdW 0) =
      Except.ok gB.genes) :=
  arithmeticCrossover_alpha_endpoints gA gB genomeIdW 0 (by simp [gA, gB])
    (fun i g1 g2 h1 h2 => by
      match i with
      | 0 =>
        simp [gA, gB] at h1 h2
        rw [← h1, ← h2]
        simp [geneA, geneB]
      | n + 1 => simp [gA] at h1)

/-- C5: all three crossover operators throw the arity error whenever the
parents' gene lists have different lengths; the operators are pure reads of
the parents (the embedding returns a fresh genome and never writes a
parent), so the failing call modifies neither parent. -/
theorem crossover_arity_error (parent1 parent2 : Genome) (prob eta alpha : ℝ)
    (rnd : ℕ → ℝ) (newId : String) (now : ℕ)
    (h : parent1.genes.length ≠ parent2.genes.length) :
    uniformCrossoverWithBias parent1 parent2 prob rnd newId now =
        Except.error crossoverArityMsg ∧
      sbxCrossover parent1 parent2 eta rnd newId now =
        Except.error crossoverArityMsg ∧
      arithmeticCrossover parent1 parent2 alpha newId now =
        Except.error crossoverArityMsg := by
  refine ⟨?_, ?_, ?_⟩
  · rw [uniformCrossoverWithBias, if_pos h]
  · rw [sbxCrossover, if_pos h]
  · rw [arithmeticCrossover, if_pos h]

/-- Witness for C5 at concrete parents of gene-list lengths 1 and 0. -/
theorem crossover_arity_error_witness :
    uniformCrossoverWithBias gA gEmpty 0.5 zeroStream genomeIdW 0 =
        Except.error crossoverArityMsg ∧
      sbxCrossover gA gEmpty 10 zeroStream genomeIdW 0 =
        Except.error crossoverArityMsg ∧
      arithmeticCrossover gA gEmpty 0.5 genomeIdW 0 =
        Except.error crossoverArityMsg :=
  crossover_arity_error gA gEmpty 0.5 10 0.5 zeroStream genomeIdW 0
    (by simp [gA, gEmpty])

/-- C10: tournamentSelection on a non-empty creature list with
tournamentSize ≤ 0 builds an empty tournament and throws the TypeError of
reducing an empty array; in general it returns a creature exactly when the
creature list is non-empty and tournamentSize ≥ 1. -/
theorem tournamentSelection_size_guard :
    (∀ (creatures : List Creature) (tournamentSize : ℤ) (rnd : ℕ → ℝ),
       creatures ≠ [] → tournamentSize ≤ 0 →
       tournamentSelection creatures tournamentSize rnd =
         Except.error reduceEmptyMsg) ∧
    (∀ (creatures : List Creature) (tournamentSize : ℤ) (rnd : ℕ → ℝ),
       (∃ c, tournamentSelection creatures tournamentSize rnd = Except.ok c) ↔
         (creatures ≠ [] ∧ 1 ≤ tournamentSize)) := by
  constructor
  · intro creatures tournamentSize rnd hne hle
    rw [tournamentSelection,
      if_neg (fun h0 => hne (List.length_eq_zero.mp h0))]
    rw [Int.toNat_eq_zero.mpr hle]
    rfl
  · intro creatures tournamentSize rnd
    by_cases hne : creatures = []
    · subst hne
      simp [tournamentSelection]
    · rw [tournamentSelection,
        if_neg (fun h0 => hne (List.length_eq_zero.mp h0))]
      by_cases hsz : 1 ≤ tournamentSize
      · have hpos : tournamentSize.toNat ≠ 0 := by omega
        obtain ⟨k, hk⟩ := Nat.exists_eq_succ_of_ne_zero hpos
        rw [hk]
        simp only [List.range_succ_eq_map, List.map_cons]
        exact ⟨fun _ => ⟨hne, hsz⟩, fun _ => ⟨_, rfl⟩⟩
      · have h0 : tournamentSize.toNat = 0 := by omega
        rw [h0]
        simp only [List.range_zero, List.map_nil]
        exact ⟨fun ⟨c, hc⟩ => absurd hc (by simp), fun hc => absurd hc.2 hsz⟩

/-- Witness for C10: a singleton pool with tournamentSize −1 throws the
reduce TypeError, and the characterization holds at that input. -/
theorem tournamentSelection_size_guard_witness :
    tournamentSelection [creatureW] (-1) zeroStream = Except.error reduceEmptyMsg ∧
      ((∃ c, tournamentSelection [creatureW] (-1) zeroStream = Except.ok c) ↔
        (([creatureW] : List Creature) ≠ [] ∧ 1 ≤ (-1 : ℤ))) :=
  ⟨tournamentSelection_size_guard.1 [creatureW] (-1) zeroStream (by simp) (by norm_num),
    tournamentSelection_size_guard.2 [creatureW] (-1) zeroStream⟩

/-- Helper: a guarded write never changes the record stored under a key
that holds a locked particle. -/
theorem writeUnlessLocked_keeps_locked (m : PMap) (key : String)
    (f : Particle → Particle) (k : String) (p : Particle)
    (hk : m k = some p) (hl : p.isLocked = true) :
    writeUnlessLocked m key f k = some p := by
  unfold writeUnlessLocked
  cases hq : m key with
  | none => exact hk
  | some q =>
    by_cases hql : q.isLocked = true
    · simp only [hql, if_true]; exact hk
    · simp only [hql, Bool.false_eq_true, if_false, setP]
      by_cases hkk : k = key
      · exfalso
        rw [hkk, hq] at hk
        cases hk
        exact hql hl
      · simp [hkk, hk]

/-- Helper: a guarded write whose update is the identity on the stored
record leaves the map unchanged. -/
theorem writeUnlessLocked_id (m : PMap) (key : String) (f : Particle → Particle)
    (hf : ∀ q, m key = some q → f q = q) :
    writeUnlessLocked m key f = m := by
  unfold writeUnlessLocked
  cases hq : m key with
  | none => rfl
  | some q =>
    by_cases hql : q.isLocked = true
    · simp [hql]
    · simp only [hql, Bool.false_eq_true, if_false, hf q hq]
      funext j
      unfold setP
      by_cases hj : j = key
      · rw [hj, hq, if_pos rfl]
      · rw [if_neg hj]

/-- Helper: one constraint relaxation never changes a key holding a locked
particle. -/
theorem applyConstraint_keeps_locked (m : PMap) (c : Constraint) (k : String)
    (p : Particle) (hk : m k = some p) (hl : p.isLocked = true) :
    applyConstraint m c k = some p := by
  unfold applyConstraint
  cases h1 : m c.p1Id with
  | none => exact hk
  | some p1 =>
    cases h2 : m c.p2Id with
    | none => exact hk
    | some p2 =>
      dsimp only
      split_ifs <;>
        first
          | exact hk
          | exact writeUnlessLocked_keeps_locked _ _ _ k p
              (writeUnlessLocked_keeps_locked _ _ _ k p hk hl) hl

/-- Helper: the full iterative solver never changes a key holding a locked
particle. -/
theorem satisfyConstraints_keeps_locked (cs : List Constraint) (m : PMap) (n : ℕ)
    (k : String) (p : Particle) (hk : m k = some p) (hl : p.isLocked = true) :
    satisfyConstraints cs m n k = some p := by
  induction n generalizing m with
  | zero => exact hk
  | succ n ih =>
    rw [satisfyConstraints]
    refine ih (solveOnce cs m) ?_
    unfold solveOnce
    clear ih
    induction cs generalizing m with
    | nil => exact hk
    | cons c t iht =>
      rw [List.foldl_cons]
      exact iht (applyConstraint m c) (applyConstraint_keeps_locked m c k p hk hl)

/-- Helper: air resistance skips locked particles. -/
theorem applyAirResistance_keeps_locked (ps : List Particle) (coefficient : ℝ)
    (i : ℕ) (p : Particle) (hp : ps[i]? = some p) (hl : p.isLocked = true) :
    (applyAirResistance ps coefficient)[i]? = some p := by
  simp [applyAirResistance, List.getElem?_map, hp, hl]

/-- C7: every stage — integrateVerlet, applyAirResistance,
satisfyConstraints, handleGroundCollision and handleWallCollision — leaves
a locked particle entirely unchanged (hence its pos, oldPos and velocity),
for every input. -/
theorem locked_particles_never_mutated :
    (∀ (ps : List Particle) (forces : Vec2) (dt ar : ℝ) (i : ℕ) (p : Particle),
       ps[i]? = some p → p.isLocked = true →
       (integrateVerlet ps forces dt ar)[i]? = some p) ∧
    (∀ (ps : List Particle) (coefficient : ℝ) (i : ℕ) (p : Particle),
       ps[i]? = some p → p.isLocked = true →
       (applyAirResistance ps coefficient)[i]? = some p) ∧
    (∀ (cs : List Constraint) (m : PMap) (n : ℕ) (k : String) (p : Particle),
       m k = some p → p.isLocked = true →
       satisfyConstraints cs m n k = some p) ∧
    (∀ (ps : List Particle) (g : Ground) (i : ℕ) (p : Particle),
       ps[i]? = some p → p.isLocked = true →
       (handleGroundCollision ps g)[i]? = some p) ∧
    (∀ (ps : List Particle) (walls : List Wall) (i : ℕ) (p : Particle),
       ps[i]? = some p → p.isLocked = true →
       (handleWallCollision ps walls)[i]? = some p) := by
  refine ⟨?_, applyAirResistance_keeps_locked, satisfyConstraints_keeps_locked, ?_, ?_⟩
  · intro ps forces dt ar i p hp hl
    simp only [integrateVerlet]
    split
    · exact applyAirResistance_keeps_locked _ _ i p
        (by simp [List.getElem?_map, hp, hl]) hl
    · simp [List.getElem?_map, hp, hl]
  · intro ps g i p hp hl
    simp [handleGroundCollision, List.getElem?_map, hp, groundStep, hl]
  · intro ps walls i p hp hl
    simp [handleWallCollision, List.getElem?_map, hp, hl]

/-- Witness for C7: each stage applied to the concrete locked anchor. -/
theorem locked_particles_never_mutated_witness :
    (integrateVerlet [pLocked] ⟨0, 9.81⟩ (1 / 60) 0.02)[0]? = some pLocked ∧
      (applyAirResistance [pLocked] 0.02)[0]? = some pLocked ∧
      satisfyConstraints [conCoin] mapAnchor 3 "anchor" = some pLocked ∧
      (handleGroundCollision [pLocked] groundW)[0]? = some pLocked ∧
      (handleWallCollision [pLocked] [wallW])[0]? = some pLocked :=
  ⟨locked_particles_never_mutated.1 [pLocked] ⟨0, 9.81⟩ (1 / 60) 0.02 0 pLocked rfl rfl,
    locked_particles_never_mutated.2.1 [pLocked] 0.02 0 pLocked rfl rfl,
    locked_particles_never_mutated.2.2.1 [conCoin] mapAnchor 3 "anchor" pLocked
      (by simp [mapAnchor]) rfl,
    locked_particles_never_mutated.2.2.2.1 [pLocked] groundW 0 pLocked rfl rfl,
    locked_particles_never_mutated.2.2.2.2 [pLocked] [wallW] 0 pLocked rfl rfl⟩

/-- Helper: the ground pass never changes the locked flag. -/
theorem groundStep_isLocked (g : Ground) (p : Particle) :
    (groundStep g p).isLocked = p.isLocked := by
  rw [groundStep]
  split_ifs <;> rfl

/-- Helper: the ground pass never changes the radius. -/
theorem groundStep_radius (g : Ground) (p : Particle) :
    (groundStep g p).radius = p.radius := by
  rw [groundStep]
  split_ifs <;> rfl

/-- Helper: after the ground pass an unlocked particle is at or above the
ground line. -/
theorem groundStep_posY_le (g : Ground) (p : Particle) (hL : p.isLocked = false) :
    (groundStep g p).pos.y ≤ g.y - p.radius := by
  rw [groundStep, if_neg (by simp [hL])]
  split_ifs with hle
  · exact hle
  · simp

/-- Helper: one ground-collision pass is idempotent per particle. -/
theorem groundStep_idem (g : Ground) (p : Particle) :
    groundStep g (groundStep g p) = groundStep g p := by
  by_cases hL : p.isLocked = true
  · have hp : groundStep g p = p := by rw [groundStep, if_pos hL]
    rw [hp, hp]
  · have hL2 : p.isLocked = false := by simpa using hL
    have h1 : (groundStep g p).isLocked = false := by
      rw [groundStep_isLocked, hL2]
    have h2 : (groundStep g p).pos.y ≤ g.y - (groundStep g p).radius := by
      rw [groundStep_radius]
      exact groundStep_posY_le g p hL2
    rw [groundStep, if_neg (by simp [h1]), if_pos h2]

/-- C8: one call of handleGroundCollision clamps every unlocked particle
beyond the ground line to pos.y = ground.y − radius, leaves every particle
already at or above the line completely unchanged, and a second call on the
result changes nothing. -/
theorem ground_collision_clamp_idempotent :
    (∀ (ps : List Particle) (g : Ground) (i : ℕ) (p : Particle),
       ps[i]? = some p → p.isLocked = false → g.y - p.radius < p.pos.y →
       ((handleGroundCollision ps g)[i]?.map (fun q => q.pos.y)) =
         some (g.y - p.radius)) ∧
    (∀ (ps : List Particle) (g : Ground) (i : ℕ) (p : Particle),
       ps[i]? = some p → p.pos.y ≤ g.y - p.radius →
       (handleGroundCollision ps g)[i]? = some p) ∧
    (∀ (ps : List Particle) (g : Ground),
       handleGroundCollision (handleGroundCollision ps g) g =
         handleGroundCollision ps g) := by
  refine ⟨?_, ?_, ?_⟩
  · intro ps g i p hp hL hgt
    simp only [handleGroundCollision, List.getElem?_map, hp, Option.map_some']
    rw [groundStep, if_neg (by simp [hL]), if_neg (not_le.mpr hgt)]
  · intro ps g i p hp hle
    simp only [handleGroundCollision, List.getElem?_map, hp, Option.map_some',
      Option.some.injEq]
    rw [groundStep]
    by_cases hL : p.isLocked = true
    · rw [if_pos hL]
    · rw [if_neg hL, if_pos hle]
  · intro ps g
    simp only [handleGroundCollision, List.map_map]
    exact List.map_congr_left (fun p _ => groundStep_idem g p)

/-- Witness for C8: the fallen particle is clamped to exactly the ground
line and the already-clear particle is returned unchanged. -/
theorem ground_collision_clamp_idempotent_witness :
    (groundW.y - pFalling.radius < pFalling.pos.y ∧
      ((handleGroundCollision [pFalling] groundW)[0]?.map (fun q => q.pos.y)) =
        some (groundW.y - pFalling.radius)) ∧
      (handleGroundCollision [pFree] groundW)[0]? = some pFree :=
  ⟨⟨by norm_num [pFalling, groundW],
    ground_collision_clamp_idempotent.1 [pFalling] groundW 0 pFalling rfl rfl
      (by norm_num [pFalling, groundW])⟩,
    ground_collision_clamp_idempotent.2.1 [pFree] groundW 0 pFree rfl
      (by norm_num [pFree, groundW])⟩

/-- Helper: the length of the direction vector equals the distance between
the endpoints. -/
theorem vecLength_subtract (v1 v2 : Vec2) :
    vecLength (subtract v2 v1) = distance v1 v2 := by
  simp [vecLength, subtract, distance]

/-- C9: a constraint whose endpoints coincide (distance exactly 0) is
silently skipped: the solver's guarded normalize returns the zero vector
instead of dividing by zero, the correction vanishes, and both endpoint
records are unchanged in every iteration. -/
theorem zero_length_constraint_skipped (m : PMap) (c : Constraint)
    (p1 p2 : Particle) (h1 : m c.p1Id = some p1) (h2 : m c.p2Id = some p2)
    (hd : distance p1.pos p2.pos = 0) :
    applyConstraint m c = m ∧ ∀ n, satisfyConstraints [c] m n = m := by
  have hstep : applyConstraint m c = m := by
    unfold applyConstraint
    rw [h1, h2]
    dsimp only
    have hzero : normalize (subtract p2.pos p1.pos) = ⟨0, 0⟩ := by
      rw [normalize, if_pos (by rw [vecLength_subtract, hd])]
    simp only [hzero, scale, multiply, zero_mul, add_zero, sub_zero]
    split_ifs <;>
      first
        | rfl
        | · rw [writeUnlessLocked_id m c.p1Id _ (fun q _ => rfl)]
            exact writeUnlessLocked_id m c.p2Id _ (fun q _ => rfl)
  refine ⟨hstep, ?_⟩
  intro n
  induction n with
  | zero => rfl
  | succ k ih =>
    rw [satisfyConstraints]
    have hsolve : solveOnce [c] m = m := by
      unfold solveOnce
      rw [List.foldl_cons, hstep, List.foldl_nil]
    rw [hsolve]
    exact ih

/-- Witness for C9 at the concrete coincident particles. -/
theorem zero_length_constraint_skipped_witness :
    applyConstraint mapCoin conCoin = mapCoin ∧
      satisfyConstraints [conCoin] mapCoin 3 = mapCoin :=
  ⟨(zero_length_constraint_skipped mapCoin conCoin pCoin1 pCoin2
      (by simp [mapCoin, conCoin]) (by simp [mapCoin, conCoin])
      (by simp [pCoin1, pCoin2, distance])).1,
    (zero_length_constraint_skipped mapCoin conCoin pCoin1 pCoin2
      (by simp [mapCoin, conCoin]) (by simp [mapCoin, conCoin])
      (by simp [pCoin1, pCoin2, distance])).2 3⟩

/-- Helper: the solver over an empty constraint list is the identity. -/
theorem satisfyConstraints_nil (n : ℕ) (m : PMap) : satisfyConstraints [] m n = m := by
  induction n with
  | zero => rfl
  | succ k ih => rw [satisfyConstraints]; exact ih

set_option maxHeartbeats 1000000 in
/-- Helper: the marshalled parity buffer as an explicit write list.
Creature 0 occupies bytes 0..72, creature 1 bytes 72..144, the glue's
96-byte metadata records start at 144 (creature 0) and 240 (creature 1). -/
theorem B0w_eq : B0w = writeAll (fun _ => 0)
    [(0, 0), (8, 50), (16, 0), (24, 50), (32, 1), (40, 1), (48, 0), (56, 0), (64, 0),
     (144, 0), (152, 0), (160, 0), (168, 0), (176, 50), (184, 0), (192, 50), (200, 0),
     (208, 100000), (216, 0), (224, 100), (232, 80),
     (72, 0), (80, 50), (88, 0), (96, 50), (104, 1), (112, 1), (120, 0), (128, 0),
     (136, 0),
     (240, 0), (248, 0), (256, 0), (264, 0), (272, 50), (280, 0), (288, 50), (296, 0),
     (304, 100000), (312, 0), (320, 100), (328, 80)] := by
  have hr1 : List.range 1 = [0] := rfl
  have hr2 : List.range 2 = [0, 1] := rfl
  norm_num [B0w, syncToWasm, creatureWrites, particleWrites, constraintWrites,
    muscleWrites, metadataWrites, wallWrites, computeLayout,
    PARTICLE_STRIDE, CONSTRAINT_STRIDE, WALL_STRIDE, METADATA_STRIDE, hr1, hr2,
    batchCreature0, batchCreature1, headP, batchTarget, gEmpty, fit1, findHeadIdx,
    List.findIdx?]

set_option maxHeartbeats 1000000 in
/-- Helper: one `step_all_creatures` call on the marshalled population.
Creature 0 is integrated (its isDead cell at 144 reads 0); for creature 1
the kernel loads the isDead flag at 144 + 1·128 = 272, which holds the
glue-marshalled currentPos.y = 50 of creature 1, so creature 1 is skipped
as dead and its particle cells stay untouched. -/
theorem step_all_eval :
    step_all_creatures B0w 0 2 1 0 0 144 0 144 1000 0.2 0 0 10 1 0 0 3 = B1w := by
  have hr0 : List.range 0 = [] := rfl
  have hr1 : List.range 1 = [0] := rfl
  have hr2 : List.range 2 = [0, 1] := rfl
  have hr3 : List.range 3 = [0, 1, 2] := rfl
  have ht3 : (3 : ℤ).toNat = 3 := rfl
  norm_num [step_all_creatures, kernel_update_muscles, kernelMuscleOne,
    kernel_integrate_verlet, kernelIntegrateOne, kernelDampOne,
    kernel_satisfy_constraints, kernelConstraintOne, kernel_ground_collision,
    kernelGroundOne, kernel_wall_collision, kernelWallOne, truncSatU,
    hr0, hr1, hr2, hr3, ht3, B0w_eq, B1w, writeAll, writeF64]

set_option maxHeartbeats 1000000 in
/-- Helper: the following `post_step_creatures` call (foot indices 0, as
coerced from the glue's missing arguments): creature 0's gait counters and
sums land at 144 + 96..120 — inside the glue's creature-1 metadata record
(240 = its isDead cell, 264 = its currentPos.x cell); creature 1 is again
skipped through the misaligned isDead load at 272. -/
theorem post_step_eval :
    post_step_creatures B1w 0 2 1 0 144 1000 0 0 = B2w := by
  have hr0 : List.range 0 = [] := rfl
  have hr1 : List.range 1 = [0] := rfl
  have hr2 : List.range 2 = [0, 1] := rfl
  norm_num [post_step_creatures, truncSatU, hr0, hr1, hr2,
    B0w_eq, B1w, B2w, writeAll, writeF64]

set_option maxHeartbeats 1000000 in
/-- Helper: the glue's batch call marshals in, runs one step_all + post_step
pair with the layout arguments it computed, and marshals back. -/
theorem stepPhysicsBatch_eval :
    stepPhysicsBatch [batchCreature0, batchCreature1] batchGround [] batchTarget 1 0 1
      batchOptions =
      some (syncFromWasm
        (post_step_creatures
          (step_all_creatures B0w 0 2 1 0 0 144 0 144 1000 0.2 0 0 10 1 0 0 3)
          0 2 1 0 144 1000 0 0)
        [batchCreature0, batchCreature1] (computeLayout 2 1 0 0 0)) := by
  have hfirst : [batchCreature0, batchCreature1].getD 0 default = batchCreature0 := rfl
  have hp : batchCreature0.particles = [headP] := rfl
  have hc : batchCreature0.constraints = ([] : List Constraint) := rfl
  have hm : batchCreature0.muscles = ([] : List Constraint) := rfl
  have hr1 : List.range 1 = [0] := rfl
  have hlay1 : (computeLayout 2 1 0 0 0).creaturesOffset = 0 := rfl
  have hlay2 : (computeLayout 2 1 0 0 0).wallsOffset = 144 := rfl
  have hlay3 : (computeLayout 2 1 0 0 0).metadataOffset = 144 := rfl
  have hlay4 : (computeLayout 2 1 0 0 0).numConstraintsTotal = 0 := rfl
  have hg1 : batchGround.y = 1000 := rfl
  have hg2 : batchGround.friction = 0.2 := rfl
  have hg3 : batchGround.restitution = 0 := rfl
  have ho1 : batchOptions.forceX = 0 := rfl
  have ho2 : batchOptions.forceY = 10 := rfl
  have ho3 : batchOptions.airResistance = 0 := rfl
  have ho4 : batchOptions.constraintIterations = 3 := rfl
  have ho5 : batchOptions.muscleStiffness = 0.9 := rfl
  rw [stepPhysicsBatch]
  rw [if_neg (by norm_num)]
  simp only [hfirst, hp, hc, hm, List.length_cons, List.length_nil, hr1,
    List.foldl_cons, List.foldl_nil, hlay1, hlay2, hlay3, hlay4, hg1, hg2, hg3,
    ho1, ho2, ho3, ho4, ho5]
  rfl

set_option maxHeartbeats 1000000 in
/-- C1: batch/single-step parity fails, because the batch metadata layout
the glue writes is not the layout the kernels read. The glue lays one
96-byte (12 f64) metadata record per creature and passes six arguments to
the eight-parameter post_step_creatures, while the kernels address
metadata at a 128-byte (16 f64) stride — so the kernel reads creature 1's
isDead flag from byte 144 + 1·128 = 272, which is where the glue marshalled
creature 1's currentPos.y (= 50 ≠ 0, fourth conjunct: the kernel's
creature-1 metadata base equals the glue's currentPos.y slot). For the
concrete two-creature population, one batch tick therefore leaves creature
1's particle at pos.y = 50 and reads it back as dead, while the Single-Body
Step pipeline moves the identical creature to pos.y = 60 — far beyond the
claimed 1e-9 relative tolerance. -/
theorem batch_parity_defect :
    ((stepPhysicsBatch [batchCreature0, batchCreature1] batchGround [] batchTarget 1 0 1
        batchOptions).map
      (fun cs => ((cs.getD 1 default).particles.map (fun p => p.pos.y),
                  (cs.getD 1 default).isDead))) = some ([50], true) ∧
    ((stepPhysics batchCreature1 batchGround [] 1 stepOptionsW).particles.map
      (fun p => p.pos.y)) = [60] ∧
    batchCreature1.isDead = false ∧
    144 + 1 * 128 = 144 + 1 * METADATA_STRIDE + 32 ∧
    ¬ (|(50 : ℝ) - 60| ≤ 1e-9 * |(60 : ℝ)|) := by
  refine ⟨?_, ?_, rfl, by norm_num [METADATA_STRIDE], by norm_num⟩
  · rw [stepPhysicsBatch_eval, step_all_eval, post_step_eval]
    have hr1 : List.range 1 = [0] := rfl
    have hr2 : List.range 2 = [0, 1] := rfl
    norm_num [syncFromWasm, B2w, B1w, B0w_eq, writeAll, writeF64, computeLayout,
      PARTICLE_STRIDE, CONSTRAINT_STRIDE, WALL_STRIDE, METADATA_STRIDE, hr1, hr2,
      List.getD_cons_succ, List.getD_cons_zero, batchCreature1, batchCreature0, headP,
      decide_eq_true_eq]
  · norm_num [stepPhysics, batchCreature1, batchCreature0, headP, batchGround,
      stepOptionsW, updateMuscles, integrateVerlet, applyAirResistance,
      createParticleMap, satisfyConstraints_nil, handleGroundCollision, groundStep,
      handleWallCollision]

end EvoWalker
